import Mathlib

/-!
Shallow embedding of the solar advisor engine: the azimuth resolution,
irradiance projection, tilt sweep, potential percentage and result
assembly of src/utils/base_model.py, together with the coordinate
helpers of src/app.py.  Floating point arithmetic is modelled over the
reals; fallible steps (exceptions) are modelled with Option.
-/

namespace SolarAdvisor

/-- Value of a run of characters read as decimal digits; none as soon as a
non-digit appears.  The empty run yields 0 and is rejected by the callers
that need at least one digit. -/
def digitsVal (cs : List Char) : Option ℕ :=
  cs.foldl
    (fun acc c =>
      match acc with
      | none => none
      | some n => if c.isDigit then some (n * 10 + (c.toNat - 48)) else none)
    (some 0)

/-- Unsigned decimal number: digits with an optional single decimal point,
at least one digit overall. -/
def parseUnsignedFloat (cs : List Char) : Option ℚ :=
  let intPart := cs.takeWhile (fun c => c.isDigit)
  match cs.dropWhile (fun c => c.isDigit), digitsVal intPart with
  | [], some n => if intPart.isEmpty then none else some (n : ℚ)
  | c :: fracChars, some n =>
    if c = '.' then
      match digitsVal fracChars with
      | some f =>
        if intPart.isEmpty && fracChars.isEmpty then none
        else some ((n : ℚ) + (f : ℚ) / ((10 : ℚ) ^ fracChars.length))
      | none => none
    else none
  | _, none => none

/-- Models the Python builtin float() applied to a string, for the plain
decimal forms relevant here (optional sign, digits, optional decimal
point).  none models the ValueError raised on a blank or otherwise
non-numeric string.  Exponents, inf, nan, underscores and surrounding
whitespace are outside the inputs exercised by the specification. -/
def pyParseFloat (s : String) : Option ℚ :=
  match s.toList with
  | [] => none
  | c :: rest =>
    if c = '-' then (parseUnsignedFloat rest).map (fun q => -q)
    else if c = '+' then parseUnsignedFloat rest
    else parseUnsignedFloat (c :: rest)

/-- A value passed as the optional user azimuth.  run_for_ui annotates the
argument as Optional[float], but Python would pass any value into
float(); numbers and strings are the cases the specification discusses. -/
inductive PyVal where
  | num (x : ℝ)
  | str (s : String)

noncomputable section

/-- Degrees to radians, as numpy radians. -/
def deg2rad (x : ℝ) : ℝ := x * Real.pi / 180

/-- Python float modulo with real operands: x % m = x - m * floor (x / m)
(the result carries the sign of the divisor). -/
def pymod (x m : ℝ) : ℝ := x - m * ⌊x / m⌋

/-- app.py _clamp_lat: max(-90.0, min(90.0, float(lat))). -/
def clampLat (lat : ℝ) : ℝ := max (-90) (min 90 lat)

/-- app.py _wrap_lon: ((float(lon) + 180.0) % 360.0) - 180.0. -/
def wrapLon (lon : ℝ) : ℝ := pymod (lon + 180) 360 - 180

/-- The Python builtin float() on an arbitrary value: identity on numbers,
string parsing on strings; none models the ValueError on a non-numeric
string. -/
def pyFloat : PyVal → Option ℝ
  | PyVal.num x => some x
  | PyVal.str s => (pyParseFloat s).map (fun q => (q : ℝ))

/-- base_model._normalize_azimuth_deg: az = float(az); return az % 360.0.
none models the exception float() raises on a non-numeric value. -/
def normalizeAzimuthDeg (az : PyVal) : Option ℝ :=
  (pyFloat az).map (fun x => pymod x 360)

/-- base_model._optimal_equator_facing_azimuth: 180.0 if latitude >= 0.0
else 0.0. -/
def optimalEquatorFacingAzimuth (latitude : ℝ) : ℝ :=
  if 0 ≤ latitude then 180 else 0

/-- The user-azimuth resolution of run_for_ui: an absent azimuth falls
back to the system ideal azimuth, a provided one goes through
_normalize_azimuth_deg.  The Bool is the user-provided marker carried by
user_az_note.  none models an exception escaping the resolution. -/
def resolveUserAzimuth (latitude : ℝ) (userAzimuth : Option PyVal) :
    Option (ℝ × Bool) :=
  match userAzimuth with
  | none => some (optimalEquatorFacingAzimuth latitude, false)
  | some v => (normalizeAzimuthDeg v).map (fun x => (x, true))

/-- The hourly environment produced once per request by _prepare_base:
for each hour index, the calendar month of its timestamp, the apparent
solar zenith and solar azimuth in degrees, and the raw clear-sky GHI in
W per square metre before clipping.  The astronomical supplier is out of
scope, so the series themselves are parameters. -/
structure HourlyEnvironment where
  nHours : ℕ
  monthOf : ℕ → Fin 12
  zenithDeg : ℕ → ℝ
  sunAzimuthDeg : ℕ → ℝ
  rawGhi : ℕ → ℝ

/-- _prepare_base: ghi_kw = clearsky ghi clipped below at 0, divided by
1000. -/
def HourlyEnvironment.ghiKw (e : HourlyEnvironment) (h : ℕ) : ℝ :=
  max (e.rawGhi h) 0 / 1000

/-- The pvlib aoi projection: cos of the angle of incidence before any
clipping, cosd(zenith) cosd(tilt) + sind(zenith) sind(tilt)
cosd(solar_azimuth - surface_azimuth). -/
def aoiProjection (tiltDeg azDeg zenDeg sunAzDeg : ℝ) : ℝ :=
  Real.cos (deg2rad zenDeg) * Real.cos (deg2rad tiltDeg) +
    Real.sin (deg2rad zenDeg) * Real.sin (deg2rad tiltDeg) *
      Real.cos (deg2rad (sunAzDeg - azDeg))

/-- cos(radians(aoi)) as computed in _compute_for_azimuth: pvlib returns
aoi = degrees(arccos(clip(projection, -1, 1))), so taking the cosine
again recovers the projection clipped to [-1, 1]. -/
def cosAoi (tiltDeg azDeg zenDeg sunAzDeg : ℝ) : ℝ :=
  max (-1) (min 1 (aoiProjection tiltDeg azDeg zenDeg sunAzDeg))

/-- One hour of the projection step of _compute_for_azimuth: cos_aoi with
negative values set to 0, poa = ghi_kw * cos_aoi * (1 - system_losses),
hourly_energy = poa * system_power_kw. -/
def hourlyEnergy (e : HourlyEnvironment)
    (systemPowerKw tiltDeg surfaceAzimuth systemLosses : ℝ) (h : ℕ) : ℝ :=
  e.ghiKw h *
      max (cosAoi tiltDeg surfaceAzimuth (e.zenithDeg h) (e.sunAzimuthDeg h)) 0 *
    (1 - systemLosses) * systemPowerKw

/-- Annual energy of one orientation: the sum of the hourly series. -/
def annualEnergy (e : HourlyEnvironment)
    (systemPowerKw tiltDeg surfaceAzimuth systemLosses : ℝ) : ℝ :=
  ∑ h ∈ Finset.range e.nHours,
    hourlyEnergy e systemPowerKw tiltDeg surfaceAzimuth systemLosses h

/-- Energy of one orientation within one calendar month: the resample sum
restricted to the hours of that month. -/
def monthlyEnergy (e : HourlyEnvironment)
    (systemPowerKw tiltDeg surfaceAzimuth systemLosses : ℝ) (m : Fin 12) : ℝ :=
  ∑ h ∈ Finset.range e.nHours,
    if e.monthOf h = m then
      hourlyEnergy e systemPowerKw tiltDeg surfaceAzimuth systemLosses h
    else 0

/-- One iteration of the annual best-tilt loop: replace the running best
only on strict improvement. -/
def sweepStep (f : ℕ → ℝ) (acc : ℝ × Option ℕ) (t : ℕ) : ℝ × Option ℕ :=
  if f t > acc.1 then (f t, some t) else acc

/-- The annual best-tilt loop of _compute_for_azimuth over the tilt grid
0..90, started from best_energy = -1.0 and best_tilt = None. -/
def annualSweep (f : ℕ → ℝ) : ℝ × Option ℕ :=
  (List.range 91).foldl (sweepStep f) (-1, none)

/-- pandas idxmax over the columns tilt_0 .. tilt_90 of the monthly sum
table: the first tilt whose value attains the maximum. -/
def idxmaxTilt (g : ℕ → ℝ) : ℕ :=
  (List.range 91).foldl (fun acc t => if g t > g acc then t else acc) 0

/-- numpy round to zero decimals: round half to even. -/
def pyround0 (x : ℝ) : ℝ :=
  if Int.fract x = 1 / 2 then
    (if ⌊x⌋ % 2 = 0 then (⌊x⌋ : ℝ) else (⌊x⌋ : ℝ) + 1)
  else ((round x : ℤ) : ℝ)

/-- The dictionary returned by _compute_for_azimuth.  Month tables are
indexed by calendar month; the tilt column labels and the regex
extraction reduce to the tilt integer itself, and monthly energies carry
the round(0) applied when the data frames are built. -/
structure AzimuthResult where
  monthlyUser : Fin 12 → ℝ
  monthlyOpt : Fin 12 → ℝ
  monthlyBestTilt : Fin 12 → ℕ
  annualEnergyUser : ℝ
  annualOptimalEnergy : ℝ
  annualOptimalTilt : ℕ
  surfaceAzimuth : ℝ

/-- _compute_for_azimuth.  none models the TypeError that int(best_tilt)
raises when no tilt in the grid ever beat the initial best_energy of
-1.0 (best_tilt still None). -/
def computeForAzimuth (e : HourlyEnvironment)
    (systemPowerKw userTilt surfaceAzimuth systemLosses : ℝ) :
    Option AzimuthResult :=
  let f : ℕ → ℝ :=
    fun t => annualEnergy e systemPowerKw t surfaceAzimuth systemLosses
  match (annualSweep f).2 with
  | none => none
  | some bestTilt =>
    some
      { monthlyUser := fun m =>
          pyround0 (monthlyEnergy e systemPowerKw userTilt surfaceAzimuth systemLosses m)
        monthlyOpt := fun m =>
          pyround0 (monthlyEnergy e systemPowerKw bestTilt surfaceAzimuth systemLosses m)
        monthlyBestTilt := fun m =>
          idxmaxTilt (fun t => monthlyEnergy e systemPowerKw t surfaceAzimuth systemLosses m)
        annualEnergyUser := annualEnergy e systemPowerKw userTilt surfaceAzimuth systemLosses
        annualOptimalEnergy := (annualSweep f).1
        annualOptimalTilt := bestTilt
        surfaceAzimuth := surfaceAzimuth }

/-- The potential computation of run_for_ui: initialized to 0.0 and
overwritten only when the user annual energy is nonzero. -/
def potentialPct (annualKwhOptimal annualKwhUser : ℝ) : ℝ :=
  if annualKwhUser ≠ 0 then
    (annualKwhOptimal - annualKwhUser) / annualKwhUser * 100
  else 0

/-- Modelled from the spec (section 4.4), for comparison with the engine:
the piecewise reference potential with its zero-denominator cases. -/
def specPotentialPct (optimalKwh userKwh : ℝ) : ℝ :=
  if userKwh = 0 ∧ 0 < optimalKwh then 100
  else if userKwh = 0 ∧ optimalKwh = 0 then 0
  else (optimalKwh - userKwh) / userKwh * 100

/-- The bytes of a rendered PDF report.  The report content is
presentation and out of scope; only success or failure matters here. -/
def PdfBytes : Type := List ℕ

/-- The UIOutput dataclass.  The recommendation strings and the month
label strings are string formatting of the numeric fields below and are
not modelled; monthlyChart pairs the rounded user and optimal monthly
energies in calendar order. -/
structure UIOutput where
  optimalAngle : ℕ
  optimalAzimuth : ℝ
  annualKwhUser : ℝ
  annualKwhOptimal : ℝ
  potentialPct : ℝ
  monthlyChart : Fin 12 → ℝ × ℝ
  tiltByMonth : Fin 12 → ℕ
  pdfBytes : Option PdfBytes
  userAzimuthUsed : ℝ

/-- run_for_ui.  The environment stands for the one-time _prepare_base
precomputation at the given coordinates (the external supplier is a
black box, so it is a parameter; longitude only feeds that supplier and
the report).  pdfOutcome is the outcome of the try block around the
out-of-scope _build_pdf_bytes: some bytes on success, none when it
raised and the except branch ran.  A none result models an exception
escaping run_for_ui itself. -/
def runForUI (e : HourlyEnvironment)
    (latitude longitude systemPowerKw userTilt : ℝ)
    (userAzimuth : Option PyVal) (pdfOutcome : Option PdfBytes) :
    Option UIOutput :=
  match resolveUserAzimuth latitude userAzimuth with
  | none => none
  | some (userAzimuthUsed, _userProvided) =>
    let optimalAzimuth := optimalEquatorFacingAzimuth latitude
    match computeForAzimuth e systemPowerKw userTilt userAzimuthUsed 0.18 with
    | none => none
    | some resUser =>
      let resSysOpt : Option AzimuthResult :=
        if userAzimuthUsed = optimalAzimuth then some resUser
        else computeForAzimuth e systemPowerKw userTilt optimalAzimuth 0.18
      match resSysOpt with
      | none => none
      | some resSys =>
        some
          { optimalAngle := resSys.annualOptimalTilt
            optimalAzimuth := optimalAzimuth
            annualKwhUser := resUser.annualEnergyUser
            annualKwhOptimal := resSys.annualOptimalEnergy
            potentialPct := potentialPct resSys.annualOptimalEnergy resUser.annualEnergyUser
            monthlyChart := fun m => (resUser.monthlyUser m, resSys.monthlyOpt m)
            tiltByMonth := resSys.monthlyBestTilt
            pdfBytes := pdfOutcome
            userAzimuthUsed := userAzimuthUsed }

/-- Annual user energy of an optional engine output, defaulted to 0 for
the exceptional case. -/
def uiAnnualKwhUser (o : Option UIOutput) : ℝ :=
  match o with
  | none => 0
  | some r => r.annualKwhUser

/-- Annual optimal energy of an optional engine output, defaulted to 0
for the exceptional case. -/
def uiAnnualKwhOptimal (o : Option UIOutput) : ℝ :=
  match o with
  | none => 0
  | some r => r.annualKwhOptimal

/-- The outputs of _compute_for_azimuth that describe the optimal-tilt
scenario: annual best tilt, annual best energy, monthly optimal series
and monthly best-tilt table. -/
def optimalFields (r : AzimuthResult) : ℕ × ℝ × (Fin 12 → ℝ) × (Fin 12 → ℕ) :=
  (r.annualOptimalTilt, r.annualOptimalEnergy, r.monthlyOpt, r.monthlyBestTilt)

/-- The non-report fields of a UIOutput, for comparing runs that differ
only in the report outcome. -/
def numericFields (o : UIOutput) :
    ℕ × ℝ × ℝ × ℝ × ℝ × (Fin 12 → ℝ × ℝ) × (Fin 12 → ℕ) × ℝ :=
  (o.optimalAngle, o.optimalAzimuth, o.annualKwhUser, o.annualKwhOptimal,
    o.potentialPct, o.monthlyChart, o.tiltByMonth, o.userAzimuthUsed)

/-- Unrolling of the annual best-tilt loop: state of the running best
after the first n candidate tilts have been scanned. -/
def sweepAux (f : ℕ → ℝ) : ℕ → ℝ × Option ℕ
  | 0 => (-1, none)
  | n + 1 => sweepStep f (sweepAux f n) n

/-- A degenerate environment with no hours: every energy sum is zero. -/
def envEmpty : HourlyEnvironment :=
  { nHours := 0
    monthOf := fun _ => 0
    zenithDeg := fun _ => 0
    sunAzimuthDeg := fun _ => 0
    rawGhi := fun _ => 0 }

/-- A single June hour with the sun on the horizon due south and a raw
GHI of 1000 W: at surface azimuth 180 the plane factor is sin(tilt),
strictly increasing up to tilt 90. -/
def envHorizonSun : HourlyEnvironment :=
  { nHours := 1
    monthOf := fun _ => 5
    zenithDeg := fun _ => 90
    sunAzimuthDeg := fun _ => 180
    rawGhi := fun _ => 1000 }

/-- A single hour with the sun due south at zenith angle 45.5 degrees:
at surface azimuth 180 the plane factor is cos(tilt - 45.5 degrees),
maximal at the off-grid tilt 45.5. -/
def envMidSun : HourlyEnvironment :=
  { nHours := 1
    monthOf := fun _ => 5
    zenithDeg := fun _ => 45.5
    sunAzimuthDeg := fun _ => 180
    rawGhi := fun _ => 1000 }

/-- The engine output on the empty environment at latitude 50 with no
user azimuth: every energy is zero, every best tilt is 0. -/
def outEmpty (p : Option PdfBytes) : UIOutput :=
  { optimalAngle := 0
    optimalAzimuth := 180
    annualKwhUser := 0
    annualKwhOptimal := 0
    potentialPct := 0
    monthlyChart := fun _ => (0, 0)
    tiltByMonth := fun _ => 0
    pdfBytes := p
    userAzimuthUsed := 180 }

/-! ### Helper lemmas -/

theorem pymod_nonneg (x m : ℝ) (hm : 0 < m) : 0 ≤ pymod x m := by
  have h1 : (⌊x / m⌋ : ℝ) * m ≤ x := (le_div_iff₀ hm).mp (Int.floor_le (x / m))
  unfold pymod
  nlinarith [h1]

theorem pymod_lt (x m : ℝ) (hm : 0 < m) : pymod x m < m := by
  have h2 : x < ((⌊x / m⌋ : ℝ) + 1) * m :=
    (div_lt_iff₀ hm).mp (Int.lt_floor_add_one (x / m))
  unfold pymod
  nlinarith [h2]

theorem floor_400_div_360 : ⌊(400 : ℝ) / 360⌋ = 1 := by
  rw [Int.floor_eq_iff]
  norm_num

theorem pymod_400_360 : pymod 400 360 = 40 := by
  unfold pymod
  rw [floor_400_div_360]
  norm_num

theorem floor_380_div_360 : ⌊(380 : ℝ) / 360⌋ = 1 := by
  rw [Int.floor_eq_iff]
  norm_num

theorem resolveUserAzimuth_num (lat x : ℝ) :
    resolveUserAzimuth lat (some (PyVal.num x)) = some (pymod x 360, true) := by
  simp [resolveUserAzimuth, normalizeAzimuthDeg, pyFloat]

/-! ### C1 — potential percentage -/

/-- C1 counterexample: at user annual energy 0 and optimal annual energy
5, the engine returns 0.0 while the piecewise reference definition of
section 4.4 returns +100.0, so the two disagree. -/
theorem potential_pct_spec_mismatch :
    potentialPct 5 0 = 0 ∧ specPotentialPct 5 0 = 100 ∧
      potentialPct 5 0 ≠ specPotentialPct 5 0 := by
  refine ⟨?_, ?_, ?_⟩ <;> norm_num [potentialPct, specPotentialPct]

/-- C1 (amended): outside the zero-user positive-optimal case the engine
potential equals the piecewise reference of section 4.4; whenever the
user energy is zero the engine returns 0.0 (even when the optimal energy
is positive, where the reference says +100.0), and for nonzero user
energy it is the unclamped relative difference, which may be negative. -/
theorem potential_pct_amended (optimalKwh userKwh : ℝ)
    (h : ¬(userKwh = 0 ∧ 0 < optimalKwh)) :
    potentialPct optimalKwh userKwh = specPotentialPct optimalKwh userKwh ∧
      (userKwh = 0 → potentialPct optimalKwh userKwh = 0) ∧
      (userKwh ≠ 0 →
        potentialPct optimalKwh userKwh = (optimalKwh - userKwh) / userKwh * 100) := by
  by_cases hu : userKwh = 0
  · subst hu
    have hopt : ¬ 0 < optimalKwh := fun hpos => h ⟨rfl, hpos⟩
    by_cases ho : optimalKwh = 0 <;>
      simp [potentialPct, specPotentialPct, ho, hopt]
  · simp [potentialPct, specPotentialPct, hu]

/-- C1 witness: the amended statement applied at the reference vector
potential_pct(8, 10), where both definitions give -20. -/
theorem potential_pct_amended_witness :
    ¬((10 : ℝ) = 0 ∧ 0 < (8 : ℝ)) ∧
      potentialPct 8 10 = specPotentialPct 8 10 := by
  have h : ¬((10 : ℝ) = 0 ∧ 0 < (8 : ℝ)) := by norm_num
  exact ⟨h, (potential_pct_amended 8 10 h).1⟩

/-! ### C5 — absent or malformed azimuth -/

/-- C5 counterexample: a blank azimuth string reaches float(), which
raises a ValueError (modelled by none) instead of falling back to the
hemisphere ideal azimuth marked as not user provided. -/
theorem blank_azimuth_raises :
    resolveUserAzimuth 50 (some (PyVal.str (""))) = none ∧
      resolveUserAzimuth 50 (some (PyVal.str (""))) ≠
        some (optimalEquatorFacingAzimuth 50, false) := by
  have h : pyParseFloat ("") = none := by decide
  refine ⟨?_, ?_⟩ <;>
    simp [resolveUserAzimuth, normalizeAzimuthDeg, pyFloat, h]

/-- C5 (amended): an absent (None) user azimuth never raises: the
effective azimuth falls back to the hemisphere ideal azimuth and the
result is marked as not user provided; a provided numeric value also
never raises.  A blank or unparseable string, however, propagates the
float() exception instead of falling back. -/
theorem absent_azimuth_falls_back (lat : ℝ) :
    resolveUserAzimuth lat none = some (optimalEquatorFacingAzimuth lat, false) ∧
      ∀ x : ℝ, resolveUserAzimuth lat (some (PyVal.num x)) = some (pymod x 360, true) := by
  exact ⟨rfl, fun x => resolveUserAzimuth_num lat x⟩

/-! ### C6 — ideal azimuth and normalization -/

/-- C6: the ideal azimuth is 180.0 for latitude at least 0 and 0.0
otherwise; a provided numeric azimuth resolves to its value normalized
into [0, 360) by the float modulo, input 400 wraps to 40, and the
spec scenario with the string form of 400 resolves to 40 as well. -/
theorem ideal_azimuth_and_normalization :
    (∀ lat : ℝ, (0 ≤ lat → optimalEquatorFacingAzimuth lat = 180) ∧
      (lat < 0 → optimalEquatorFacingAzimuth lat = 0)) ∧
    (∀ lat x : ℝ,
      resolveUserAzimuth lat (some (PyVal.num x)) = some (pymod x 360, true) ∧
        0 ≤ pymod x 360 ∧ pymod x 360 < 360) ∧
    pymod 400 360 = 40 ∧
    resolveUserAzimuth 50 (some (PyVal.str ("400"))) = some (40, true) := by
  refine ⟨?_, ?_, pymod_400_360, ?_⟩
  · intro lat
    constructor
    · intro h
      simp [optimalEquatorFacingAzimuth, h]
    · intro h
      simp [optimalEquatorFacingAzimuth, not_le.mpr h]
  · intro lat x
    exact ⟨resolveUserAzimuth_num lat x,
      pymod_nonneg x 360 (by norm_num), pymod_lt x 360 (by norm_num)⟩
  · have hp : pyParseFloat ("400") = some 400 := by decide
    have hc : (((400 : ℚ) : ℝ)) = 400 := by norm_num
    simp [resolveUserAzimuth, normalizeAzimuthDeg, pyFloat, hp, hc, pymod_400_360]

/-- C6 witness: the hypothesis-bearing parts applied at latitude 50 and
azimuth 400. -/
theorem ideal_azimuth_and_normalization_witness :
    ((0 : ℝ) ≤ 50) ∧ optimalEquatorFacingAzimuth 50 = 180 :=
  ⟨by norm_num, (ideal_azimuth_and_normalization.1 50).1 (by norm_num)⟩

/-! ### C8 — coordinate clamping and wrapping -/

/-- C8: latitude clamping lands in [-90, 90] and returns the point of
that interval nearest to the input (clampLat 120 = 90), and longitude
wrapping lands in [-180, 180) at the value congruent to the input
modulo 360 (wrapLon 200 = -160); both are total functions, so no
user-visible error is possible. -/
theorem clamp_wrap_correct :
    (∀ lat : ℝ, -90 ≤ clampLat lat ∧ clampLat lat ≤ 90 ∧
      ∀ y : ℝ, -90 ≤ y → y ≤ 90 → |lat - clampLat lat| ≤ |lat - y|) ∧
    clampLat 120 = 90 ∧
    (∀ lon : ℝ, -180 ≤ wrapLon lon ∧ wrapLon lon < 180 ∧
      ∃ k : ℤ, wrapLon lon = lon - 360 * k) ∧
    wrapLon 200 = -160 := by
  have hclamp120 : clampLat 120 = 90 := by
    unfold clampLat
    rw [min_eq_left (by norm_num), max_eq_right (by norm_num)]
  refine ⟨?_, hclamp120, ?_, ?_⟩
  · intro lat
    refine ⟨le_max_left _ _, max_le (by norm_num) (min_le_left _ _), ?_⟩
    intro y hy1 hy2
    rcases le_total lat (-90) with h1 | h1
    · have hc : clampLat lat = -90 := by
        unfold clampLat
        rw [min_eq_right (by linarith), max_eq_left (by linarith)]
      rw [hc, abs_of_nonpos (by linarith), abs_of_nonpos (by linarith)]
      linarith
    · rcases le_total 90 lat with h2 | h2
      · have hc : clampLat lat = 90 := by
          unfold clampLat
          rw [min_eq_left (by linarith), max_eq_right (by norm_num)]
        rw [hc, abs_of_nonneg (by linarith), abs_of_nonneg (by linarith)]
        linarith
      · have hc : clampLat lat = lat := by
          unfold clampLat
          rw [min_eq_right (by linarith), max_eq_right (by linarith)]
        rw [hc, sub_self, abs_zero]
        exact abs_nonneg _
  · intro lon
    have hb1 := pymod_nonneg (lon + 180) 360 (by norm_num)
    have hb2 := pymod_lt (lon + 180) 360 (by norm_num)
    refine ⟨by unfold wrapLon; linarith, by unfold wrapLon; linarith, ?_⟩
    refine ⟨⌊(lon + 180) / 360⌋, ?_⟩
    unfold wrapLon pymod
    ring
  · unfold wrapLon pymod
    rw [show (200 : ℝ) + 180 = 380 by norm_num, floor_380_div_360]
    norm_num

/-- C8 witness: the nearest-point statement applied at latitude input 120
against the in-range candidate 90, and the wrap example. -/
theorem clamp_wrap_correct_witness :
    (-90 ≤ (90 : ℝ)) ∧ ((90 : ℝ) ≤ 90) ∧
      |(120 : ℝ) - clampLat 120| ≤ |(120 : ℝ) - 90| :=
  ⟨by norm_num, by norm_num,
    (clamp_wrap_correct.1 120).2.2 90 (by norm_num) (by norm_num)⟩

/-! ### Energy sign lemmas -/

theorem ghiKw_nonneg (e : HourlyEnvironment) (h : ℕ) : 0 ≤ e.ghiKw h :=
  div_nonneg (le_max_right _ _) (by norm_num)

theorem hourlyEnergy_nonneg (e : HourlyEnvironment)
    (power tilt az loss : ℝ) (h : ℕ) (hp : 0 ≤ power) (hl : loss ≤ 1) :
    0 ≤ hourlyEnergy e power tilt az loss h := by
  unfold hourlyEnergy
  have h3 : (0 : ℝ) ≤ 1 - loss := by linarith
  exact mul_nonneg
    (mul_nonneg (mul_nonneg (ghiKw_nonneg e h) (le_max_right _ _)) h3) hp

theorem annualEnergy_nonneg (e : HourlyEnvironment)
    (power tilt az loss : ℝ) (hp : 0 ≤ power) (hl : loss ≤ 1) :
    0 ≤ annualEnergy e power tilt az loss :=
  Finset.sum_nonneg fun h _ => hourlyEnergy_nonneg e power tilt az loss h hp hl

theorem monthlyEnergy_nonneg (e : HourlyEnvironment)
    (power tilt az loss : ℝ) (m : Fin 12) (hp : 0 ≤ power) (hl : loss ≤ 1) :
    0 ≤ monthlyEnergy e power tilt az loss m := by
  refine Finset.sum_nonneg fun h _ => ?_
  by_cases hm : e.monthOf h = m
  · simpa [hm] using hourlyEnergy_nonneg e power tilt az loss h hp hl
  · simp [hm]

/-! ### Sweep loop lemmas -/

theorem annualSweep_eq_sweepAux (f : ℕ → ℝ) (n : ℕ) :
    (List.range n).foldl (sweepStep f) (-1, none) = sweepAux f n := by
  induction n with
  | zero => rfl
  | succ n ih =>
    rw [List.range_succ, List.foldl_append, ih]
    rfl

theorem sweepAux_spec (f : ℕ → ℝ) :
    ∀ n, 0 < n → (∀ t, t < n → -1 < f t) →
      ∃ t, t < n ∧ sweepAux f n = (f t, some t) ∧
        (∀ s, s < n → f s ≤ f t) ∧ (∀ s, s < t → f s < f t) := by
  intro n
  induction n with
  | zero => intro h; exact absurd h (lt_irrefl 0)
  | succ n ih =>
    intro _ hf
    rcases Nat.eq_zero_or_pos n with hn | hn
    · subst hn
      have h0 : f 0 > ((-1 : ℝ), (none : Option ℕ)).1 := hf 0 Nat.one_pos
      refine ⟨0, Nat.one_pos, ?_, ?_, ?_⟩
      · simp [sweepAux, sweepStep, h0]
      · intro s hs
        have hs0 : s = 0 := by omega
        subst hs0
        exact le_refl _
      · intro s hs
        exact absurd hs (Nat.not_lt_zero s)
    · obtain ⟨t, ht, heq, hmax, hfirst⟩ :=
        ih hn (fun s hs => hf s (Nat.lt_succ_of_lt hs))
    /- one more scan step at candidate tilt n -/
      by_cases hcmp : f n > f t
      · refine ⟨n, Nat.lt_succ_self n, ?_, ?_, ?_⟩
        · simp only [sweepAux]
          rw [heq]
          simp [sweepStep, hcmp]
        · intro s hs
          rcases Nat.lt_succ_iff_lt_or_eq.mp hs with h | h
          · exact le_of_lt (lt_of_le_of_lt (hmax s h) hcmp)
          · subst h
            exact le_refl _
        · intro s hs
          exact lt_of_le_of_lt (hmax s hs) hcmp
      · refine ⟨t, Nat.lt_succ_of_lt ht, ?_, ?_, hfirst⟩
        · simp only [sweepAux]
          rw [heq]
          simp [sweepStep, hcmp]
        · intro s hs
          rcases Nat.lt_succ_iff_lt_or_eq.mp hs with h | h
          · exact hmax s h
          · subst h
            exact not_lt.mp hcmp

theorem sweepAux_fst_ge (f : ℕ → ℝ) :
    ∀ n s, s < n → f s ≤ (sweepAux f n).1 := by
  intro n
  induction n with
  | zero => intro s hs; exact absurd hs (Nat.not_lt_zero s)
  | succ n ih =>
    intro s hs
    have h1 : (sweepAux f n).1 ≤ (sweepAux f (n + 1)).1 := by
      simp only [sweepAux, sweepStep]
      by_cases h : f n > (sweepAux f n).1
      · simp only [if_pos h]
        exact le_of_lt h
      · simp only [if_neg h]
        exact le_refl _
    have h2 : f n ≤ (sweepAux f (n + 1)).1 := by
      simp only [sweepAux, sweepStep]
      by_cases h : f n > (sweepAux f n).1
      · simp only [if_pos h]
        exact le_refl _
      · simp only [if_neg h]
        exact not_lt.mp h
    rcases Nat.lt_succ_iff_lt_or_eq.mp hs with h | h
    · exact le_trans (ih s h) h1
    · subst h
      exact h2

theorem idxmaxTilt_zero_of_const_zero (g : ℕ → ℝ) (hg : ∀ t, g t = 0) :
    idxmaxTilt g = 0 := by
  unfold idxmaxTilt
  have key : ∀ l : List ℕ, l.foldl (fun acc t => if g t > g acc then t else acc) 0 = 0 := by
    intro l
    induction l with
    | nil => rfl
    | cons a l ih =>
      rw [List.foldl_cons]
      have : ¬ g a > g 0 := by rw [hg a, hg 0]; exact lt_irrefl 0
      rw [if_neg this]
      exact ih
  exact key (List.range 91)

/-! ### C2 — projected hourly energy -/

/-- C2: for every hour, tilt, azimuth and system with positive rated
power and loss fraction in [0,1), the projected hourly energy equals
the clear-sky GHI times the cosine of the angle of incidence clipped
below at zero times (1 - loss) times the rated power; it is never
negative, and hours whose raw angle-of-incidence cosine is negative
contribute exactly zero. -/
theorem hourly_energy_formula_and_nonneg (e : HourlyEnvironment)
    (power tilt az loss : ℝ) (h : ℕ)
    (hp : 0 < power) (hl0 : 0 ≤ loss) (hl1 : loss < 1) :
    hourlyEnergy e power tilt az loss h =
        e.ghiKw h * max (cosAoi tilt az (e.zenithDeg h) (e.sunAzimuthDeg h)) 0 *
          (1 - loss) * power ∧
      0 ≤ hourlyEnergy e power tilt az loss h ∧
      (cosAoi tilt az (e.zenithDeg h) (e.sunAzimuthDeg h) < 0 →
        hourlyEnergy e power tilt az loss h = 0) := by
  refine ⟨rfl, hourlyEnergy_nonneg e power tilt az loss h (le_of_lt hp) (le_of_lt hl1), ?_⟩
  intro hc
  unfold hourlyEnergy
  rw [max_eq_right (le_of_lt hc)]
  ring

/-- C2 witness: the statement applied at a concrete hour of the empty
environment with rated power 1 and loss fraction 0. -/
theorem hourly_energy_formula_and_nonneg_witness :
    (0 : ℝ) < 1 ∧ (0 : ℝ) ≤ 0 ∧ (0 : ℝ) < 1 ∧
      0 ≤ hourlyEnergy envEmpty 1 0 180 0 0 :=
  ⟨by norm_num, le_refl 0, by norm_num,
    (hourly_energy_formula_and_nonneg envEmpty 1 0 180 0 0
      (by norm_num) (by norm_num) (by norm_num)).2.1⟩

/-! ### C3 — annual best tilt -/

/-- C3: for every environment, azimuth and system with positive rated
power and loss fraction in [0,1), the annual sweep returns a best tilt
inside the grid 0..90 whose annual energy attains the grid maximum,
every strictly smaller tilt has strictly smaller annual energy (so the
first tilt reaching the maximum wins the scan from 0 upward), and
_compute_for_azimuth returns normally, so a tie never causes a crash. -/
theorem annual_sweep_first_argmax (e : HourlyEnvironment)
    (power az loss userTilt : ℝ)
    (hp : 0 < power) (hl0 : 0 ≤ loss) (hl1 : loss < 1) :
    ∃ t : ℕ, t ≤ 90 ∧
      annualSweep (fun k : ℕ => annualEnergy e power k az loss) =
        (annualEnergy e power t az loss, some t) ∧
      (∀ s : ℕ, s ≤ 90 →
        annualEnergy e power s az loss ≤ annualEnergy e power t az loss) ∧
      (∀ s : ℕ, s < t →
        annualEnergy e power s az loss < annualEnergy e power t az loss) ∧
      (computeForAzimuth e power userTilt az loss).isSome := by
  have hpos : ∀ t : ℕ, t < 91 → -1 < annualEnergy e power t az loss := by
    intro t _
    exact lt_of_lt_of_le (by norm_num)
      (annualEnergy_nonneg e power t az loss (le_of_lt hp) (le_of_lt hl1))
  obtain ⟨t, ht, heq, hmax, hfirst⟩ :=
    sweepAux_spec (fun k : ℕ => annualEnergy e power k az loss) 91 (by norm_num) hpos
  have hsweep : annualSweep (fun k : ℕ => annualEnergy e power k az loss) =
      (annualEnergy e power t az loss, some t) := by
    unfold annualSweep
    rw [annualSweep_eq_sweepAux]
    exact heq
  refine ⟨t, by omega, hsweep, fun s hs => hmax s (by omega), hfirst, ?_⟩
  simp [computeForAzimuth, hsweep]

/-- C3 witness: the statement applied to the empty environment with
rated power 1, loss fraction 0 and azimuth 180. -/
theorem annual_sweep_first_argmax_witness :
    (0 : ℝ) < 1 ∧ (0 : ℝ) ≤ 0 ∧ (0 : ℝ) < 1 ∧
      (∃ t : ℕ, t ≤ 90 ∧
        annualSweep (fun k : ℕ => annualEnergy envEmpty 1 k 180 0) =
          (annualEnergy envEmpty 1 t 180 0, some t) ∧
        (∀ s : ℕ, s ≤ 90 →
          annualEnergy envEmpty 1 s 180 0 ≤ annualEnergy envEmpty 1 t 180 0) ∧
        (∀ s : ℕ, s < t →
          annualEnergy envEmpty 1 s 180 0 < annualEnergy envEmpty 1 t 180 0) ∧
        (computeForAzimuth envEmpty 1 0 180 0).isSome) :=
  ⟨by norm_num, le_refl 0, by norm_num,
    annual_sweep_first_argmax envEmpty 1 180 0 0
      (by norm_num) (by norm_num) (by norm_num)⟩

/-! ### Degree and clipping lemmas -/

theorem deg2rad_zero : deg2rad 0 = 0 := by
  unfold deg2rad
  ring

theorem deg2rad_90 : deg2rad 90 = Real.pi / 2 := by
  unfold deg2rad
  ring

theorem deg2rad_180 : deg2rad 180 = Real.pi := by
  unfold deg2rad
  ring

theorem deg2rad_sub (x y : ℝ) : deg2rad (x - y) = deg2rad x - deg2rad y := by
  unfold deg2rad
  ring

theorem deg2rad_mono {x y : ℝ} (h : x ≤ y) : deg2rad x ≤ deg2rad y := by
  unfold deg2rad
  have hpi := Real.pi_pos
  nlinarith [mul_nonneg (sub_nonneg.mpr h) hpi.le]

theorem deg2rad_nonneg {x : ℝ} (h : 0 ≤ x) : 0 ≤ deg2rad x := by
  rw [← deg2rad_zero]
  exact deg2rad_mono h

theorem deg2rad_strictMono {x y : ℝ} (h : x < y) : deg2rad x < deg2rad y := by
  unfold deg2rad
  have hpi := Real.pi_pos
  nlinarith [mul_pos (sub_pos.mpr h) hpi]

theorem abs_deg2rad (x : ℝ) : |deg2rad x| = deg2rad |x| := by
  unfold deg2rad
  rw [abs_div, abs_mul, abs_of_pos Real.pi_pos,
    abs_of_pos (show (0 : ℝ) < 180 by norm_num)]

/-- Both clipping stages collapse for an in-range nonnegative projection. -/
theorem clip_eval {x : ℝ} (h1 : -1 ≤ x) (h2 : x ≤ 1) (h3 : 0 ≤ x) :
    max (max (-1) (min 1 x)) 0 = x := by
  rw [min_eq_right h2, max_eq_right h1, max_eq_left h3]

/-! ### The horizon-sun environment -/

theorem aoiProjection_horizonSun (t : ℝ) :
    aoiProjection t 180 90 180 = Real.sin (deg2rad t) := by
  unfold aoiProjection
  rw [show (180 : ℝ) - 180 = 0 by norm_num, deg2rad_90, deg2rad_zero,
    Real.cos_pi_div_two, Real.sin_pi_div_two, Real.cos_zero]
  ring

theorem horizonSun_hourly (power loss t : ℝ) (h : ℕ)
    (ht0 : 0 ≤ t) (ht90 : t ≤ 90) :
    hourlyEnergy envHorizonSun power t 180 loss h =
      Real.sin (deg2rad t) * (1 - loss) * power := by
  have hle : deg2rad t ≤ Real.pi / 2 := by
    rw [← deg2rad_90]
    exact deg2rad_mono ht90
  have hs0 : 0 ≤ Real.sin (deg2rad t) :=
    Real.sin_nonneg_of_nonneg_of_le_pi (deg2rad_nonneg ht0)
      (le_trans hle (by linarith [Real.pi_pos]))
  have hs1 : Real.sin (deg2rad t) ≤ 1 := Real.sin_le_one _
  have hclip : max (cosAoi t 180 90 180) 0 = Real.sin (deg2rad t) := by
    unfold cosAoi
    rw [aoiProjection_horizonSun]
    exact clip_eval (by linarith) hs1 hs0
  show envHorizonSun.ghiKw h * max (cosAoi t 180 (envHorizonSun.zenithDeg h)
      (envHorizonSun.sunAzimuthDeg h)) 0 * (1 - loss) * power = _
  have hghi : envHorizonSun.ghiKw h = 1 := by
    unfold HourlyEnvironment.ghiKw envHorizonSun
    rw [max_eq_left (by norm_num)]
    norm_num
  show envHorizonSun.ghiKw h * max (cosAoi t 180 90 180) 0 * (1 - loss) * power = _
  rw [hghi, hclip, one_mul]

theorem horizonSun_annual (power loss t : ℝ) (ht0 : 0 ≤ t) (ht90 : t ≤ 90) :
    annualEnergy envHorizonSun power t 180 loss =
      Real.sin (deg2rad t) * (1 - loss) * power := by
  unfold annualEnergy
  show ∑ h ∈ Finset.range 1, hourlyEnergy envHorizonSun power t 180 loss h = _
  rw [Finset.sum_range_one, horizonSun_hourly power loss t 0 ht0 ht90]

theorem horizonSun_month0 (power loss t : ℝ) :
    monthlyEnergy envHorizonSun power t 180 loss 0 = 0 := by
  unfold monthlyEnergy
  show ∑ h ∈ Finset.range 1, _ = 0
  rw [Finset.sum_range_one]
  have : envHorizonSun.monthOf 0 = (5 : Fin 12) := rfl
  rw [this]
  simp

/-! ### C7 — monthly and annual optima are independent -/

/-- C7: on the one-hour June horizon-sun environment the annual sweep
selects tilt 90 (the annual energy is strictly increasing in tilt),
while the irradiance-free month of January gets best tilt 0 from the
first-maximum scan; the two optimizations are computed independently and
their results differ. -/
theorem monthly_vs_annual_optimum_independent :
    (computeForAzimuth envHorizonSun 10 45 180 0.18).map
        (fun r => r.annualOptimalTilt) = some 90 ∧
      (computeForAzimuth envHorizonSun 10 45 180 0.18).map
        (fun r => r.monthlyBestTilt 0) = some 0 ∧
      (computeForAzimuth envHorizonSun 10 45 180 0.18).map
          (fun r => r.annualOptimalTilt) ≠
        (computeForAzimuth envHorizonSun 10 45 180 0.18).map
          (fun r => r.monthlyBestTilt 0) := by
  have hmono : ∀ s t : ℕ, s < t → t ≤ 90 →
      annualEnergy envHorizonSun 10 s 180 0.18 <
        annualEnergy envHorizonSun 10 t 180 0.18 := by
    intro s t hst ht90
    have hs0 : (0 : ℝ) ≤ (s : ℝ) := Nat.cast_nonneg s
    have ht0 : (0 : ℝ) ≤ (t : ℝ) := Nat.cast_nonneg t
    have hsr : (s : ℝ) ≤ 90 := by
      have : (s : ℝ) < (t : ℝ) := by exact_mod_cast hst
      have : (t : ℝ) ≤ 90 := by exact_mod_cast ht90
      linarith [show (s : ℝ) < (t : ℝ) by exact_mod_cast hst]
    have htr : (t : ℝ) ≤ 90 := by exact_mod_cast ht90
    rw [horizonSun_annual 10 0.18 s hs0 hsr, horizonSun_annual 10 0.18 t ht0 htr]
    have hsin : Real.sin (deg2rad s) < Real.sin (deg2rad t) := by
      apply Real.strictMonoOn_sin
      · constructor
        · linarith [deg2rad_nonneg hs0, Real.pi_pos]
        · rw [← deg2rad_90]; exact deg2rad_mono hsr
      · constructor
        · linarith [deg2rad_nonneg ht0, Real.pi_pos]
        · rw [← deg2rad_90]; exact deg2rad_mono htr
      · exact deg2rad_strictMono (by exact_mod_cast hst)
    have h1 : Real.sin (deg2rad s) * (1 - 0.18) < Real.sin (deg2rad t) * (1 - 0.18) :=
      mul_lt_mul_of_pos_right hsin (by norm_num)
    exact mul_lt_mul_of_pos_right h1 (by norm_num)
  have hpos : ∀ t : ℕ, t < 91 → -1 < annualEnergy envHorizonSun 10 t 180 0.18 := by
    intro t _
    exact lt_of_lt_of_le (by norm_num)
      (annualEnergy_nonneg envHorizonSun 10 t 180 0.18 (by norm_num) (by norm_num))
  obtain ⟨t, ht, heq, hmax, _⟩ :=
    sweepAux_spec (fun k : ℕ => annualEnergy envHorizonSun 10 k 180 0.18) 91
      (by norm_num) hpos
  have ht90 : t = 90 := by
    by_contra hne
    have ht89 : t ≤ 90 := by omega
    have hlt : t < 90 := lt_of_le_of_ne ht89 hne
    have := hmono t 90 hlt (le_refl 90)
    have h90 := hmax 90 (by omega)
    simp only at h90
    linarith
  subst ht90
  have hsweep : annualSweep (fun k : ℕ => annualEnergy envHorizonSun 10 k 180 0.18) =
      (annualEnergy envHorizonSun 10 (90 : ℕ) 180 0.18, some 90) := by
    unfold annualSweep
    rw [annualSweep_eq_sweepAux]
    exact heq
  have hmonth : ∀ t : ℕ,
      monthlyEnergy envHorizonSun 10 t 180 0.18 0 = 0 :=
    fun t => horizonSun_month0 10 0.18 t
  refine ⟨?_, ?_, ?_⟩
  · simp [computeForAzimuth, hsweep]
  · simp [computeForAzimuth, hsweep]
    exact idxmaxTilt_zero_of_const_zero _ hmonth
  · simp [computeForAzimuth, hsweep]
    exact fun hcontra => by
      have := idxmaxTilt_zero_of_const_zero
        (fun t : ℕ => monthlyEnergy envHorizonSun 10 t 180 0.18 0) hmonth
      omega

/-! ### The mid-sun environment -/

theorem aoiProjection_midSun (t : ℝ) :
    aoiProjection t 180 45.5 180 = Real.cos (deg2rad (45.5 - t)) := by
  unfold aoiProjection
  rw [show (180 : ℝ) - 180 = 0 by norm_num, deg2rad_zero, Real.cos_zero,
    mul_one, deg2rad_sub, Real.cos_sub]

theorem midSun_cos_nonneg (t : ℝ) (ht0 : 0 ≤ t) (ht90 : t ≤ 90) :
    0 ≤ Real.cos (deg2rad (45.5 - t)) := by
  apply Real.cos_nonneg_of_neg_pi_div_two_le_of_le
  · have hneg : deg2rad (-90) = -(Real.pi / 2) := by
      unfold deg2rad
      ring
    rw [← hneg]
    exact deg2rad_mono (by linarith)
  · rw [← deg2rad_90]
    exact deg2rad_mono (by linarith)

theorem midSun_hourly (power loss t : ℝ) (h : ℕ) (ht0 : 0 ≤ t) (ht90 : t ≤ 90) :
    hourlyEnergy envMidSun power t 180 loss h =
      Real.cos (deg2rad (45.5 - t)) * (1 - loss) * power := by
  have hc0 := midSun_cos_nonneg t ht0 ht90
  have hclip : max (cosAoi t 180 45.5 180) 0 = Real.cos (deg2rad (45.5 - t)) := by
    unfold cosAoi
    rw [aoiProjection_midSun]
    exact clip_eval (Real.neg_one_le_cos _) (Real.cos_le_one _) hc0
  have hghi : envMidSun.ghiKw h = 1 := by
    unfold HourlyEnvironment.ghiKw envMidSun
    rw [max_eq_left (by norm_num)]
    norm_num
  show envMidSun.ghiKw h * max (cosAoi t 180 45.5 180) 0 * (1 - loss) * power = _
  rw [hghi, hclip, one_mul]

theorem midSun_annual (power loss t : ℝ) (ht0 : 0 ≤ t) (ht90 : t ≤ 90) :
    annualEnergy envMidSun power t 180 loss =
      Real.cos (deg2rad (45.5 - t)) * (1 - loss) * power := by
  unfold annualEnergy
  show ∑ h ∈ Finset.range 1, hourlyEnergy envMidSun power t 180 loss h = _
  rw [Finset.sum_range_one, midSun_hourly power loss t 0 ht0 ht90]

theorem midSun_grid_bound (t : ℕ) (ht : t ≤ 90) :
    Real.cos (deg2rad (45.5 - (t : ℝ))) ≤ Real.cos (deg2rad 0.5) := by
  have habs : Real.cos (deg2rad (45.5 - (t : ℝ))) =
      Real.cos (deg2rad |45.5 - (t : ℝ)|) := by
    rw [← abs_deg2rad, Real.cos_abs]
  rw [habs]
  apply Real.cos_le_cos_of_nonneg_of_le_pi
  · exact deg2rad_nonneg (by norm_num)
  · rw [← deg2rad_180]
    apply deg2rad_mono
    have htR : (t : ℝ) ≤ 90 := by exact_mod_cast ht
    rcases le_or_lt (t : ℝ) 45.5 with h | h
    · rw [abs_of_nonneg (by linarith)]
      have ht0 : (0 : ℝ) ≤ (t : ℝ) := by exact_mod_cast Nat.zero_le t
      linarith
    · rw [abs_of_neg (by linarith)]
      linarith
  · apply deg2rad_mono
    rcases Nat.lt_or_ge t 46 with h | h
    · have htR : (t : ℝ) ≤ 45 := by exact_mod_cast Nat.lt_succ_iff.mp h
      rw [abs_of_nonneg (by linarith)]
      linarith
    · have htR : (46 : ℝ) ≤ (t : ℝ) := by exact_mod_cast h
      rw [abs_of_nonpos (by linarith)]
      linarith

theorem cos_half_deg_lt_one : Real.cos (deg2rad 0.5) < 1 := by
  have hpos : (0 : ℝ) < deg2rad 0.5 := by
    have h := deg2rad_strictMono (show (0 : ℝ) < 0.5 by norm_num)
    rwa [deg2rad_zero] at h
  have h : Real.cos (deg2rad 0.5) < Real.cos 0 :=
    Real.cos_lt_cos_of_nonneg_of_le_pi (le_refl 0)
      (by rw [← deg2rad_180]; exact deg2rad_mono (by norm_num)) hpos
  rwa [Real.cos_zero] at h

/-! ### run_for_ui unfolding lemmas -/

theorem runForUI_none_az (e : HourlyEnvironment) (lat lon power tilt : ℝ)
    (p : Option PdfBytes) (r : AzimuthResult)
    (hcomp : computeForAzimuth e power tilt (optimalEquatorFacingAzimuth lat) 0.18 =
      some r) :
    runForUI e lat lon power tilt none p = some
      { optimalAngle := r.annualOptimalTilt
        optimalAzimuth := optimalEquatorFacingAzimuth lat
        annualKwhUser := r.annualEnergyUser
        annualKwhOptimal := r.annualOptimalEnergy
        potentialPct := potentialPct r.annualOptimalEnergy r.annualEnergyUser
        monthlyChart := fun m => (r.monthlyUser m, r.monthlyOpt m)
        tiltByMonth := r.monthlyBestTilt
        pdfBytes := p
        userAzimuthUsed := optimalEquatorFacingAzimuth lat } := by
  simp [runForUI, resolveUserAzimuth, hcomp]

theorem annualEnergy_envEmpty (power tilt az loss : ℝ) :
    annualEnergy envEmpty power tilt az loss = 0 := by
  simp [annualEnergy, envEmpty]

theorem monthlyEnergy_envEmpty (power tilt az loss : ℝ) (m : Fin 12) :
    monthlyEnergy envEmpty power tilt az loss m = 0 := by
  simp [monthlyEnergy, envEmpty]

theorem sweepAux_const_zero (f : ℕ → ℝ) (hf : ∀ t, f t = 0) :
    ∀ n, 0 < n → sweepAux f n = (0, some 0) := by
  intro n
  induction n with
  | zero => intro h; exact absurd h (lt_irrefl 0)
  | succ n ih =>
    intro _
    rcases Nat.eq_zero_or_pos n with hn | hn
    · subst hn
      have h0 : f 0 > ((-1 : ℝ), (none : Option ℕ)).1 := by
        rw [hf 0]
        norm_num
      simp [sweepAux, sweepStep, h0, hf 0]
    · have hihn := ih hn
      simp only [sweepAux]
      rw [hihn]
      have hnot : ¬ f n > (((0 : ℝ), some 0) : ℝ × Option ℕ).1 := by
        rw [hf n]
        simp
      simp [sweepStep, hnot]

theorem pyround0_zero : pyround0 0 = 0 := by
  have h : ¬ (Int.fract (0 : ℝ) = 1 / 2) := by
    rw [Int.fract_zero]
    norm_num
  unfold pyround0
  rw [if_neg h, round_zero]
  norm_num

theorem idxmaxTilt_const0 : idxmaxTilt (fun _ => (0 : ℝ)) = 0 :=
  idxmaxTilt_zero_of_const_zero _ (fun _ => rfl)

theorem computeForAzimuth_envEmpty (power tilt az loss : ℝ) :
    computeForAzimuth envEmpty power tilt az loss = some
      { monthlyUser := fun _ => 0
        monthlyOpt := fun _ => 0
        monthlyBestTilt := fun _ => 0
        annualEnergyUser := 0
        annualOptimalEnergy := 0
        annualOptimalTilt := 0
        surfaceAzimuth := az } := by
  have hf : ∀ t : ℕ, annualEnergy envEmpty power (t : ℝ) az loss = 0 :=
    fun t => annualEnergy_envEmpty power t az loss
  have hsweep0 : annualSweep (fun _ : ℕ => (0 : ℝ)) = (0, some 0) := by
    unfold annualSweep
    rw [annualSweep_eq_sweepAux]
    exact sweepAux_const_zero _ (fun _ => rfl) 91 (by norm_num)
  simp [computeForAzimuth, annualEnergy_envEmpty, hsweep0, monthlyEnergy_envEmpty,
    pyround0_zero, idxmaxTilt_const0]

theorem optimalEquatorFacingAzimuth_50 : optimalEquatorFacingAzimuth 50 = 180 := by
  unfold optimalEquatorFacingAzimuth
  rw [if_pos (by norm_num)]

theorem runForUI_envEmpty (p : Option PdfBytes) :
    runForUI envEmpty 50 30 10 0 none p = some (outEmpty p) := by
  have hcomp : computeForAzimuth envEmpty 10 0 (optimalEquatorFacingAzimuth 50) 0.18 =
      some { monthlyUser := fun _ => 0
             monthlyOpt := fun _ => 0
             monthlyBestTilt := fun _ => 0
             annualEnergyUser := 0
             annualOptimalEnergy := 0
             annualOptimalTilt := 0
             surfaceAzimuth := optimalEquatorFacingAzimuth 50 } :=
    computeForAzimuth_envEmpty 10 0 _ 0.18
  rw [runForUI_none_az envEmpty 50 30 10 0 p _ hcomp]
  simp [outEmpty, optimalEquatorFacingAzimuth_50, potentialPct]

/-! ### C4 — optimal versus user annual energy -/

/-- C4 counterexample: on the one-hour 45.5-degree-zenith environment
with the user azimuth absent (so the azimuth used equals the ideal
azimuth 180) and the real-valued user tilt 45.5 off the integer grid,
the engine returns normally but the returned optimal annual energy is
strictly below the user annual energy, because the integer tilt sweep
cannot reach the plane factor cos 0 attained at tilt 45.5. -/
theorem real_tilt_beats_grid_optimum :
    (runForUI envMidSun 50 30 10 45.5 none none).isSome = true ∧
      uiAnnualKwhOptimal (runForUI envMidSun 50 30 10 45.5 none none) <
        uiAnnualKwhUser (runForUI envMidSun 50 30 10 45.5 none none) := by
  have hpos : ∀ t : ℕ, t < 91 → -1 < annualEnergy envMidSun 10 t 180 0.18 := by
    intro t _
    exact lt_of_lt_of_le (by norm_num)
      (annualEnergy_nonneg envMidSun 10 t 180 0.18 (by norm_num) (by norm_num))
  obtain ⟨t, ht, heq, hmax, _⟩ :=
    sweepAux_spec (fun k : ℕ => annualEnergy envMidSun 10 k 180 0.18) 91
      (by norm_num) hpos
  have hsweep : annualSweep (fun k : ℕ => annualEnergy envMidSun 10 k 180 0.18) =
      (annualEnergy envMidSun 10 (t : ℝ) 180 0.18, some t) := by
    unfold annualSweep
    rw [annualSweep_eq_sweepAux]
    exact heq
  have hcomp : computeForAzimuth envMidSun 10 45.5 180 0.18 = some
      { monthlyUser := fun m => pyround0 (monthlyEnergy envMidSun 10 45.5 180 0.18 m)
        monthlyOpt := fun m => pyround0 (monthlyEnergy envMidSun 10 t 180 0.18 m)
        monthlyBestTilt := fun m =>
          idxmaxTilt (fun k => monthlyEnergy envMidSun 10 k 180 0.18 m)
        annualEnergyUser := annualEnergy envMidSun 10 45.5 180 0.18
        annualOptimalEnergy := annualEnergy envMidSun 10 (t : ℝ) 180 0.18
        annualOptimalTilt := t
        surfaceAzimuth := 180 } := by
    simp [computeForAzimuth, hsweep]
  have hrun := runForUI_none_az envMidSun 50 30 10 45.5 none _
    (by rw [optimalEquatorFacingAzimuth_50]; exact hcomp)
  rw [hrun]
  refine ⟨rfl, ?_⟩
  show annualEnergy envMidSun 10 (t : ℝ) 180 0.18 <
    annualEnergy envMidSun 10 45.5 180 0.18
  have htR0 : (0 : ℝ) ≤ (t : ℝ) := Nat.cast_nonneg t
  have htR90 : (t : ℝ) ≤ 90 := by exact_mod_cast (show t ≤ 90 by omega)
  rw [midSun_annual 10 0.18 (t : ℝ) htR0 htR90,
    midSun_annual 10 0.18 45.5 (by norm_num) (by norm_num)]
  rw [show (45.5 : ℝ) - 45.5 = 0 by norm_num, deg2rad_zero, Real.cos_zero]
  have hb := midSun_grid_bound t (by omega)
  have hlt : Real.cos (deg2rad (45.5 - (t : ℝ))) < 1 :=
    lt_of_le_of_lt hb cos_half_deg_lt_one
  have h1 : Real.cos (deg2rad (45.5 - (t : ℝ))) * (1 - 0.18) < 1 * (1 - 0.18) :=
    mul_lt_mul_of_pos_right hlt (by norm_num)
  exact mul_lt_mul_of_pos_right h1 (by norm_num)

/-- C4 (amended): whenever the engine returns and the user azimuth used
equals the ideal azimuth, and the user tilt lies on the integer sweep
grid 0..90, the returned optimal annual energy dominates the user annual
energy; for real-valued user tilts off the grid the inequality can fail,
as the counterexample shows. -/
theorem annual_optimal_ge_user_on_grid (e : HourlyEnvironment)
    (lat lon power : ℝ) (uaz : Option PyVal) (p : Option PdfBytes)
    (k : ℕ) (out : UIOutput) (hk : k ≤ 90)
    (hrun : runForUI e lat lon power (k : ℝ) uaz p = some out)
    (haz : out.userAzimuthUsed = out.optimalAzimuth) :
    out.annualKwhUser ≤ out.annualKwhOptimal := by
  rcases hres : resolveUserAzimuth lat uaz with _ | ⟨azu, pv⟩
  · simp [runForUI, hres] at hrun
  simp only [runForUI, hres] at hrun
  rcases hcu : computeForAzimuth e power (k : ℝ) azu 0.18 with _ | rU
  · simp [hcu] at hrun
  simp only [hcu] at hrun
  by_cases hif : azu = optimalEquatorFacingAzimuth lat
  · simp only [if_pos hif] at hrun
    injection hrun with hout
    subst hout
    show rU.annualEnergyUser ≤ rU.annualOptimalEnergy
    rcases hs : (annualSweep (fun t : ℕ => annualEnergy e power t azu 0.18)).2 with _ | bt
    · simp [computeForAzimuth, hs] at hcu
    · simp only [computeForAzimuth, hs] at hcu
      injection hcu with hr
      subst hr
      show annualEnergy e power (k : ℝ) azu 0.18 ≤
        (annualSweep (fun t : ℕ => annualEnergy e power t azu 0.18)).1
      have hfst := sweepAux_fst_ge
        (fun t : ℕ => annualEnergy e power t azu 0.18) 91 k (by omega)
      have hann : (annualSweep (fun t : ℕ => annualEnergy e power t azu 0.18)).1 =
          (sweepAux (fun t : ℕ => annualEnergy e power t azu 0.18) 91).1 := by
        unfold annualSweep
        rw [annualSweep_eq_sweepAux]
      rw [hann]
      exact hfst
  · simp only [if_neg hif] at hrun
    rcases hc2 : computeForAzimuth e power (k : ℝ) (optimalEquatorFacingAzimuth lat) 0.18
      with _ | rS
    · simp [hc2] at hrun
    · simp only [hc2] at hrun
      injection hrun with hout
      subst hout
      exact absurd haz hif

/-- C4 witness: the amended statement applied to the empty environment
with the user tilt at grid point 0 and no user azimuth. -/
theorem annual_optimal_ge_user_on_grid_witness :
    (0 : ℕ) ≤ 90 ∧
      runForUI envEmpty 50 30 10 ((0 : ℕ) : ℝ) none none = some (outEmpty none) ∧
      (outEmpty none).userAzimuthUsed = (outEmpty none).optimalAzimuth ∧
      (outEmpty none).annualKwhUser ≤ (outEmpty none).annualKwhOptimal :=
  ⟨by norm_num,
    by rw [Nat.cast_zero]; exact runForUI_envEmpty none,
    rfl,
    annual_optimal_ge_user_on_grid envEmpty 50 30 10 none none 0 (outEmpty none)
      (by norm_num)
      (by rw [Nat.cast_zero]; exact runForUI_envEmpty none)
      rfl⟩

/-! ### C9 — report failure degrades independently -/

theorem runForUI_pdfBytes_eq (e : HourlyEnvironment)
    (lat lon power tilt : ℝ) (uaz : Option PyVal) (p : Option PdfBytes)
    (out : UIOutput) (hrun : runForUI e lat lon power tilt uaz p = some out) :
    out.pdfBytes = p := by
  rcases hres : resolveUserAzimuth lat uaz with _ | ⟨azu, pv⟩
  · simp [runForUI, hres] at hrun
  simp only [runForUI, hres] at hrun
  rcases hcu : computeForAzimuth e power tilt azu 0.18 with _ | rU
  · simp [hcu] at hrun
  simp only [hcu] at hrun
  by_cases hif : azu = optimalEquatorFacingAzimuth lat
  · simp only [if_pos hif] at hrun
    injection hrun with hout
    subst hout
    rfl
  · simp only [if_neg hif] at hrun
    rcases hc2 : computeForAzimuth e power tilt (optimalEquatorFacingAzimuth lat) 0.18
      with _ | rS
    · simp [hc2] at hrun
    · simp only [hc2] at hrun
      injection hrun with hout
      subst hout
      rfl

/-- C9: whether the PDF build succeeds or raises, the engine returns the
same numeric fields (optimal angle and azimuth, annual energies,
potential, monthly tables, azimuth used) and returns normally in exactly
the same cases; on failure only pdf_bytes becomes none. -/
theorem pdf_failure_preserves_numeric_fields (e : HourlyEnvironment)
    (lat lon power tilt : ℝ) (uaz : Option PyVal) (b1 b2 : Option PdfBytes) :
    (runForUI e lat lon power tilt uaz b1).map numericFields =
        (runForUI e lat lon power tilt uaz b2).map numericFields ∧
      (runForUI e lat lon power tilt uaz b1).isSome =
        (runForUI e lat lon power tilt uaz b2).isSome ∧
      (∀ out, runForUI e lat lon power tilt uaz none = some out →
        out.pdfBytes = none) := by
  refine ⟨?_, ?_, fun out hrun =>
    runForUI_pdfBytes_eq e lat lon power tilt uaz none out hrun⟩ <;>
  · rcases hres : resolveUserAzimuth lat uaz with _ | ⟨azu, pv⟩
    · simp [runForUI, hres]
    rcases hcu : computeForAzimuth e power tilt azu 0.18 with _ | rU
    · simp [runForUI, hres, hcu]
    by_cases hif : azu = optimalEquatorFacingAzimuth lat
    · subst hif
      simp [runForUI, hres, hcu, numericFields]
    · rcases hc2 : computeForAzimuth e power tilt (optimalEquatorFacingAzimuth lat) 0.18
        with _ | rS
      · simp [runForUI, hres, hcu, hif, hc2]
      · simp [runForUI, hres, hcu, hif, hc2, numericFields]

/-- C9 witness: the third clause applied to the empty environment, whose
engine output with a failed report has pdf_bytes equal to none. -/
theorem pdf_failure_preserves_numeric_fields_witness :
    runForUI envEmpty 50 30 10 0 none none = some (outEmpty none) ∧
      (outEmpty none).pdfBytes = none :=
  ⟨runForUI_envEmpty none,
    (pdf_failure_preserves_numeric_fields envEmpty 50 30 10 0 none none none).2.2
      (outEmpty none) (runForUI_envEmpty none)⟩

/-! ### C10 — reuse of the user computation at the ideal azimuth -/

theorem computeForAzimuth_tilt_invariant (e : HourlyEnvironment)
    (power az loss u1 u2 : ℝ) :
    (computeForAzimuth e power u1 az loss).map optimalFields =
      (computeForAzimuth e power u2 az loss).map optimalFields := by
  rcases hs : (annualSweep (fun t : ℕ => annualEnergy e power t az loss)).2 with _ | bt <;>
    simp [computeForAzimuth, hs, optimalFields]

/-- C10: the optimal-scenario outputs of _compute_for_azimuth (annual
best tilt, annual best energy, monthly optimal series, monthly best-tilt
table) do not depend on the user tilt argument; consequently, when the
user azimuth used equals the ideal azimuth, the engine output obtained
by reusing the user-scenario computation coincides on those outputs with
an independent computation at the ideal azimuth with any tilt argument. -/
theorem optimal_outputs_tilt_invariant (e : HourlyEnvironment)
    (power az loss u1 u2 : ℝ) :
    (computeForAzimuth e power u1 az loss).map optimalFields =
        (computeForAzimuth e power u2 az loss).map optimalFields ∧
      ∀ (lat lon : ℝ) (uaz : Option PyVal) (p : Option PdfBytes) (out : UIOutput),
        runForUI e lat lon power u1 uaz p = some out →
        out.userAzimuthUsed = out.optimalAzimuth →
        (computeForAzimuth e power u2 out.optimalAzimuth 0.18).map optimalFields =
          some (out.optimalAngle, out.annualKwhOptimal,
            fun m => (out.monthlyChart m).2, out.tiltByMonth) := by
  refine ⟨computeForAzimuth_tilt_invariant e power az loss u1 u2, ?_⟩
  intro lat lon uaz p out hrun haz
  rcases hres : resolveUserAzimuth lat uaz with _ | ⟨azu, pv⟩
  · simp [runForUI, hres] at hrun
  simp only [runForUI, hres] at hrun
  rcases hcu : computeForAzimuth e power u1 azu 0.18 with _ | rU
  · simp [hcu] at hrun
  simp only [hcu] at hrun
  by_cases hif : azu = optimalEquatorFacingAzimuth lat
  · simp only [if_pos hif] at hrun
    injection hrun with hout
    subst hout
    show (computeForAzimuth e power u2 (optimalEquatorFacingAzimuth lat) 0.18).map
        optimalFields =
      some (rU.annualOptimalTilt, rU.annualOptimalEnergy, rU.monthlyOpt, rU.monthlyBestTilt)
    rw [computeForAzimuth_tilt_invariant e power (optimalEquatorFacingAzimuth lat) 0.18 u2 u1]
    rw [← hif, hcu]
    rfl
  · simp only [if_neg hif] at hrun
    rcases hc2 : computeForAzimuth e power u1 (optimalEquatorFacingAzimuth lat) 0.18
      with _ | rS
    · simp [hc2] at hrun
    · simp only [hc2] at hrun
      injection hrun with hout
      subst hout
      exact absurd haz hif

/-- C10 witness: the reuse clause applied to the empty environment with
run tilt 0 and comparison tilt 7. -/
theorem optimal_outputs_tilt_invariant_witness :
    runForUI envEmpty 50 30 10 0 none none = some (outEmpty none) ∧
      (outEmpty none).userAzimuthUsed = (outEmpty none).optimalAzimuth ∧
      (computeForAzimuth envEmpty 10 7 (outEmpty none).optimalAzimuth 0.18).map
          optimalFields =
        some ((outEmpty none).optimalAngle, (outEmpty none).annualKwhOptimal,
          fun m => ((outEmpty none).monthlyChart m).2, (outEmpty none).tiltByMonth) :=
  ⟨runForUI_envEmpty none, rfl,
    (optimal_outputs_tilt_invariant envEmpty 10 180 0.18 0 7).2 50 30 none none
      (outEmpty none) (runForUI_envEmpty none) rfl⟩

end

end SolarAdvisor
